import Mathlib

/-!
Shallow embedding of `src/code-executor/lib/mcp_client.py`, the MCP
tool-invocation client: identifier parsing, server-config resolution, the
stdio transport's response scan, the single-call orchestrator and the two
concurrent multi-call operations.

Modelling conventions:
- Python values produced by `json.loads` / `json.load` are modelled by
  `PyVal`; numbers are modelled as `Int` (no claim involves floats).
- A Python dict is an association list of fields.  Dicts decoded from JSON
  have pairwise distinct keys; all lookups below are first-match, which
  agrees with Python dict lookup on duplicate-free field lists.
- Exceptions are modelled by the `Except` monad with the error type `PyErr`,
  one constructor per raise site (plus `keyError` / `typeError` for the
  implicit exceptions Python raises in `d[k]` and `k in d`).
- The external world (the spawned server process, the uuid generator, the
  config file) is passed in explicitly (`World`, `Env`).
- Concurrency: the two `asyncio.gather` based operations run one
  `call_mcp_tool` per descriptor with no shared mutable state, so in this
  embedding they are mappings over the descriptor list; completion order,
  which the source leaves to the scheduler, does not affect any modelled
  observable except which failing task's exception `gather` rethrows in
  fail-fast mode (modelled as the first failure in input order).
-/

/-- Model of a Python value decoded from JSON: the config document,
request/response records and tool payloads.  `obj` is an association list
modelling a dict (keys are strings, modelled as `List Char`). -/
inductive PyVal where
  | null : PyVal
  | bool : Bool → PyVal
  | num : Int → PyVal
  | str : List Char → PyVal
  | arr : List PyVal → PyVal
  | obj : List (List Char × PyVal) → PyVal

/-- The exceptions `mcp_client.py` raises, one constructor per raise site,
carrying the data interpolated into the message.  `mcpError_wrapped` is the
`except Exception` wrapper at the end of `call_mcp_tool` (line 214);
`keyError` / `typeError` are the exceptions Python itself raises from
`d[k]` on a missing key and from `in` / subscripting on unsuitable types
(neither is caught anywhere in the file). -/
inductive PyErr where
  | valueError_invalidToolName : List Char → PyErr
  | fileNotFoundError_configMissing : List Char → PyErr
  | mcpError_invalidJson : List Char → PyErr
  | mcpError_noServersKey : List Char → PyErr
  | mcpError_serverNotFound : List Char → List Char → PyErr
  | mcpError_commandNotFound : PyVal → PyErr
  | mcpError_toolError : PyVal → PyErr
  | mcpError_noResponse : PyErr
  | mcpError_wrapped : List Char → PyErr → PyErr
  | keyError : List Char → PyErr
  | typeError : List Char → PyErr

/-- Decimal rendering of an integer, as Python's `str`/`json.dumps` print it. -/
def intChars (n : Int) : List Char :=
  if n < 0 then '-' :: Nat.toDigits 10 n.natAbs else Nat.toDigits 10 n.natAbs

/-- String escaping as used by `json.dumps`, restricted to the quote and
backslash (control-character escapes are out of scope for every claim). -/
def escapeChars : List Char → List Char
  | [] => []
  | c :: rest =>
    if c = '"' ∨ c = '\\' then '\\' :: c :: escapeChars rest
    else c :: escapeChars rest

mutual

/-- Rendering of a decoded value by `json.dumps` with default separators,
used only to build exception message strings (`str(e)` in the
partial-success outcome list). -/
def jsonDumps : PyVal → List Char
  | PyVal.null => ("null".data)
  | PyVal.bool true => ("true".data)
  | PyVal.bool false => ("false".data)
  | PyVal.num n => intChars n
  | PyVal.str s => '"' :: (escapeChars s ++ ['"'])
  | PyVal.arr xs => '[' :: (dumpsList xs ++ [']'])
  | PyVal.obj fs => '\x7b' :: (dumpsFields fs ++ ['\x7d'])

/-- Comma-separated rendering of an array's elements. -/
def dumpsList : List PyVal → List Char
  | [] => []
  | [x] => jsonDumps x
  | x :: y :: rest => jsonDumps x ++ ',' :: ' ' :: dumpsList (y :: rest)

/-- Comma-separated rendering of a dict's fields. -/
def dumpsFields : List (List Char × PyVal) → List Char
  | [] => []
  | [(k, v)] => '"' :: (escapeChars k ++ '"' :: ':' :: ' ' :: jsonDumps v)
  | (k, v) :: g :: rest =>
    ('"' :: (escapeChars k ++ '"' :: ':' :: ' ' :: jsonDumps v))
      ++ ',' :: ' ' :: dumpsFields (g :: rest)

end

/-- Python `str(v)`: identity on strings, `json.dumps`-style rendering
otherwise (an approximation: `str` of a dict uses `repr`; no claim depends
on this text). -/
def pyStrOfVal (v : PyVal) : List Char :=
  match v with
  | PyVal.str s => s
  | _ => jsonDumps v

/-- Python `str(e)` for each exception, reproducing the message built at
the corresponding raise site in `mcp_client.py`. -/
def pyStr : PyErr → List Char
  | PyErr.valueError_invalidToolName t =>
    ("Invalid MCP tool name format: ".data) ++ t
      ++ (". Expected: mcp__<server>__<tool>".data)
  | PyErr.fileNotFoundError_configMissing p =>
    ("MCP config file not found: ".data) ++ p
  | PyErr.mcpError_invalidJson m =>
    ("Invalid JSON in MCP config: ".data) ++ m
  | PyErr.mcpError_noServersKey p =>
    ("No 'mcpServers' key in config: ".data) ++ p
  | PyErr.mcpError_serverNotFound s p =>
    ("MCP server '".data) ++ s ++ ("' not found in config: ".data) ++ p
  | PyErr.mcpError_commandNotFound c =>
    ("MCP server command not found: ".data) ++ pyStrOfVal c
  | PyErr.mcpError_toolError payload =>
    ("MCP tool error: ".data) ++ jsonDumps payload
  | PyErr.mcpError_noResponse => ("No valid MCP response received".data)
  | PyErr.mcpError_wrapped t cause =>
    ("Failed to call MCP tool ".data) ++ t ++ (": ".data) ++ pyStr cause
  | PyErr.keyError k => ("'".data) ++ k ++ ("'".data)
  | PyErr.typeError m => m

/-- First-match lookup in a dict's field list; models Python dict lookup
(dicts decoded from JSON have unique keys, so first-match agrees). -/
def lookupField (fields : List (List Char × PyVal)) (key : List Char) : Option PyVal :=
  match fields with
  | [] => none
  | f :: rest => if f.1 = key then some f.2 else lookupField rest key

/-- Python substring containment, `needle in haystack` for strings. -/
def listIsInfix (pat : List Char) : List Char → Bool
  | [] => pat.isEmpty
  | c :: rest => pat.isPrefixOf (c :: rest) || listIsInfix pat rest

/-- Python `key in v` for a string `key`: dict → key membership, list →
element membership (a string equals only string elements), str → substring
test, any other type → `TypeError` (never caught in `mcp_client.py`). -/
def pyContains (key : List Char) (v : PyVal) : Except PyErr Bool :=
  match v with
  | PyVal.obj fields => Except.ok (fields.any fun f => decide (f.1 = key))
  | PyVal.arr xs =>
    Except.ok (xs.any fun x =>
      match x with
      | PyVal.str s => decide (s = key)
      | _ => false)
  | PyVal.str s => Except.ok (listIsInfix key s)
  | _ => Except.error (PyErr.typeError ("argument is not iterable".data))

/-- Python `v[key]` for a string `key`: dict lookup (`KeyError` when the
key is absent), `TypeError` on any non-dict. -/
def pyGetItem (v : PyVal) (key : List Char) : Except PyErr PyVal :=
  match v with
  | PyVal.obj fields =>
    match lookupField fields key with
    | some x => Except.ok x
    | none => Except.error (PyErr.keyError key)
  | PyVal.str _ =>
    Except.error (PyErr.typeError ("string indices must be integers".data))
  | PyVal.arr _ =>
    Except.error (PyErr.typeError ("list indices must be integers or slices, not str".data))
  | _ => Except.error (PyErr.typeError ("object is not subscriptable".data))

/-- Python `d.get(key, default)`; in `mcp_client.py` it is only applied to
values already known to be dicts. -/
def pyDictGet (v : PyVal) (key : List Char) (default : PyVal) : PyVal :=
  match v with
  | PyVal.obj fields => (lookupField fields key).getD default
  | _ => default

/-- Python `tool_name.split(sep)` for the fixed two-character separator of
double underscores: scan left to right, cutting at each non-overlapping
occurrence of the separator. -/
def splitSep : List Char → List (List Char)
  | [] => [[]]
  | [c] => [[c]]
  | c1 :: c2 :: rest =>
    if c1 = '_' ∧ c2 = '_' then [] :: splitSep rest
    else
      match splitSep (c2 :: rest) with
      | [] => [[c1]]
      | p :: ps => (c1 :: p) :: ps

/-- Companion to `splitSep`: whether the string contains two adjacent
underscores, i.e. an occurrence of the separator. -/
def hasDD : List Char → Bool
  | [] => false
  | [_] => false
  | c1 :: c2 :: rest =>
    if c1 = '_' ∧ c2 = '_' then true else hasDD (c2 :: rest)

/-- `parse_mcp_tool_name` (mcp_client.py lines 31-52): split on the double
underscore; reject unless exactly three parts with the first equal to
`mcp`; return the last two parts. -/
def parse_mcp_tool_name (tool_name : List Char) : Except PyErr (List Char × List Char) :=
  match splitSep tool_name with
  | [p0, p1, p2] =>
    if p0 = ("mcp".data) then Except.ok (p1, p2)
    else Except.error (PyErr.valueError_invalidToolName tool_name)
  | _ => Except.error (PyErr.valueError_invalidToolName tool_name)

/-- The ambient state read by `get_mcp_server_config` (lines 55-95): the
`MCP_CONFIG_PATH` environment variable, the home directory, file existence,
and the outcome of `json.load` on an existing file (its error carries the
`JSONDecodeError` message text). -/
structure Env where
  mcpConfigPath : Option (List Char)
  home : List Char
  fileExists : List Char → Bool
  readJson : List Char → Except (List Char) PyVal

/-- `os.path.join(a, b)` for the one relative component used here. -/
def pathJoin (a b : List Char) : List Char :=
  if a = [] then b
  else if a.getLast? = some '/' then a ++ b
  else a ++ '/' :: b

/-- Config-path discovery (lines 70-74): the environment variable wins
unless unset or empty (Python truthiness), else the well-known file under
the home directory. -/
def resolvedConfigPath (env : Env) : List Char :=
  match env.mcpConfigPath with
  | some p => if p = [] then pathJoin env.home (".mcp.json".data) else p
  | none => pathJoin env.home (".mcp.json".data)

/-- `get_mcp_server_config` (lines 55-95): locate the config file, require
it to exist and decode, require the `mcpServers` key, require the server
entry, and return that entry verbatim.  The membership tests and
subscripts go through `pyContains` / `pyGetItem` because the decoded
document can be any JSON value. -/
def get_mcp_server_config (env : Env) (server_name : List Char) : Except PyErr PyVal :=
  let config_path := resolvedConfigPath env
  if env.fileExists config_path then
    match env.readJson config_path with
    | Except.error e => Except.error (PyErr.mcpError_invalidJson e)
    | Except.ok config =>
      match pyContains ("mcpServers".data) config with
      | Except.error e => Except.error e
      | Except.ok false => Except.error (PyErr.mcpError_noServersKey config_path)
      | Except.ok true =>
        match pyGetItem config ("mcpServers".data) with
        | Except.error e => Except.error e
        | Except.ok servers =>
          match pyContains server_name servers with
          | Except.error e => Except.error e
          | Except.ok false =>
            Except.error (PyErr.mcpError_serverNotFound server_name config_path)
          | Except.ok true => pyGetItem servers server_name
  else Except.error (PyErr.fileNotFoundError_configMissing config_path)

/-- One line of the server's stdout after `stdout_text.strip().split(nl)`:
whitespace-only (`line.strip()` falsy, skipped before decoding), a line on
which `json.loads` raises `JSONDecodeError`, or a line decoding to a value. -/
inductive OutLine where
  | blank : OutLine
  | noJson : OutLine
  | val : PyVal → OutLine

/-- The response scan of `call_mcp_tool_via_stdio` (lines 152-174): in
stream order, skip blank lines and lines `json.loads` rejects; on a decoded
value, `in` then `[]` for the `error` key (an error record raises
`MCPError`), then the same for `result` (a result record returns its
payload); a decoded value on which `in` raises `TypeError` propagates that
exception (only `JSONDecodeError` is caught); if no line settles the call,
raise `MCPError` no-response. -/
def scan_lines : List OutLine → Except PyErr PyVal
  | [] => Except.error PyErr.mcpError_noResponse
  | OutLine.blank :: rest => scan_lines rest
  | OutLine.noJson :: rest => scan_lines rest
  | OutLine.val j :: rest =>
    match pyContains ("error".data) j with
    | Except.error e => Except.error e
    | Except.ok true =>
      match pyGetItem j ("error".data) with
      | Except.ok payload => Except.error (PyErr.mcpError_toolError payload)
      | Except.error e => Except.error e
    | Except.ok false =>
      match pyContains ("result".data) j with
      | Except.error e => Except.error e
      | Except.ok true =>
        match pyGetItem j ("result".data) with
        | Except.ok v => Except.ok v
        | Except.error e => Except.error e
      | Except.ok false => scan_lines rest

/-- External behaviour of the uuid generator and the spawned process:
`freshId` models `str(uuid4())`; `canLaunch command args` is false exactly
when `asyncio.create_subprocess_exec` raises `FileNotFoundError`;
`runProc command args request` gives the decoded stdout lines the launched
process produces after receiving the encoded request on stdin.  stderr
only feeds a diagnostic print (lines 148-150) and affects no modelled
observable. -/
structure World where
  freshId : List Char
  canLaunch : PyVal → PyVal → Bool
  runProc : PyVal → PyVal → PyVal → List OutLine

/-- The request dict built at lines 121-129. -/
def mkRequest (rid tool : List Char) (parameters : PyVal) : PyVal :=
  PyVal.obj [
    (("jsonrpc".data), PyVal.str ("2.0".data)),
    (("id".data), PyVal.str rid),
    (("method".data), PyVal.str ("tools/call".data)),
    (("params".data), PyVal.obj [
      (("name".data), PyVal.str tool),
      (("arguments".data), parameters)])]

/-- `call_mcp_tool_via_stdio` (lines 98-174): `server_config[command]`
(KeyError/TypeError uncaught), `server_config.get(args, [])`, build the
request, launch the process (`FileNotFoundError` becomes an `MCPError`),
exchange, and scan the stdout lines. -/
def call_mcp_tool_via_stdio (w : World) (server_config : PyVal)
    (tool_name : List Char) (parameters : PyVal) : Except PyErr PyVal :=
  match pyGetItem server_config ("command".data) with
  | Except.error e => Except.error e
  | Except.ok command =>
    let args := pyDictGet server_config ("args".data) (PyVal.arr [])
    let request := mkRequest w.freshId tool_name parameters
    if w.canLaunch command args then
      scan_lines (w.runProc command args request)
    else
      Except.error (PyErr.mcpError_commandNotFound command)

/-- `call_mcp_tool` (lines 177-214): default the parameters to an empty
dict, parse the identifier, resolve the server config, call the transport;
only the transport call sits inside the `try`, so only its failures are
wrapped into the uniform `MCPError` (line 214) — parse and resolve
failures propagate as they are. -/
def call_mcp_tool (w : World) (env : Env) (tool_name : List Char)
    (parameters : Option PyVal) : Except PyErr PyVal :=
  let params := parameters.getD (PyVal.obj [])
  match parse_mcp_tool_name tool_name with
  | Except.error e => Except.error e
  | Except.ok (server_name, tool) =>
    match get_mcp_server_config env server_name with
    | Except.error e => Except.error e
    | Except.ok server_config =>
      match call_mcp_tool_via_stdio w server_config tool params with
      | Except.ok result => Except.ok result
      | Except.error e => Except.error (PyErr.mcpError_wrapped tool_name e)

/-- A call descriptor handed to the two multi-call operations: a dict with
a string under `tool` and optionally a dict of parameters (`call.get` with
default at lines 236 and 266 supplies the empty dict when absent). -/
structure CallDesc where
  tool : List Char
  parameters : Option PyVal

/-- Parameters actually passed for a descriptor: `call.get(parameters, {})`. -/
def descParams (c : CallDesc) : PyVal := c.parameters.getD (PyVal.obj [])

/-- The task built for one descriptor in both multi-call operations. -/
def call_one (w : World) (env : Env) (c : CallDesc) : Except PyErr PyVal :=
  call_mcp_tool w env c.tool (some (descParams c))

/-- `asyncio.gather` without `return_exceptions`: all results if every task
succeeds, otherwise a single aggregate failure and no result list.  The
source leaves which failing task's exception is rethrown to the scheduler;
this sequential model propagates the first failure in input order. -/
def gatherFailFast : List (Except PyErr PyVal) → Except PyErr (List PyVal)
  | [] => Except.ok []
  | Except.ok v :: rest =>
    match gatherFailFast rest with
    | Except.ok l => Except.ok (v :: l)
    | Except.error e => Except.error e
  | Except.error e :: _ => Except.error e

/-- `call_mcp_tools_parallel` (lines 217-239). -/
def call_mcp_tools_parallel (w : World) (env : Env) (calls : List CallDesc) :
    Except PyErr (List PyVal) :=
  gatherFailFast (calls.map (call_one w env))

/-- Conversion of one gathered outcome into the result dict built by the
comprehension at lines 272-277. -/
def toOutcome : Except PyErr PyVal → PyVal
  | Except.ok v =>
    PyVal.obj [(("success".data), PyVal.bool true), (("data".data), v)]
  | Except.error e =>
    PyVal.obj [(("success".data), PyVal.bool false),
      (("error".data), PyVal.str (pyStr e))]

/-- `call_mcp_tools_parallel_safe` (lines 242-277): gather with
`return_exceptions=True` keeps every task's terminal outcome at its own
position; the comprehension then tags each as success or failure. -/
def call_mcp_tools_parallel_safe (w : World) (env : Env) (calls : List CallDesc) :
    List PyVal :=
  (calls.map (call_one w env)).map toOutcome

/-- A separator-free string is returned by the split as a single segment. -/
theorem splitSep_eq_single (s : List Char) (h : hasDD s = false) : splitSep s = [s] := by
  induction s with
  | nil => rfl
  | cons c tail ih =>
    cases tail with
    | nil => rfl
    | cons d tl =>
      rw [hasDD] at h
      split at h
      · exact absurd h (by simp)
      · rename_i hne
        rw [splitSep, if_neg hne, ih h]

/-- Splitting a string that starts with a segment `s` free of the separator
(even after appending one underscore, which also rules out `s` ending in an
underscore) followed by the separator: the split cuts exactly there. -/
theorem splitSep_append_sep (s r : List Char) (h : hasDD (s ++ ['_']) = false) :
    splitSep (s ++ '_' :: '_' :: r) = s :: splitSep r := by
  induction s with
  | nil => rfl
  | cons c tail ih =>
    cases tail with
    | nil =>
      rw [List.singleton_append, hasDD] at h
      split at h
      · exact absurd h (by simp)
      · rename_i hne
        have hc : ¬(c = '_' ∧ '_' = '_') := fun hcc => hne ⟨hcc.1, rfl⟩
        rw [List.singleton_append, splitSep, if_neg hc, splitSep, if_pos ⟨rfl, rfl⟩]
    | cons d tl =>
      rw [List.cons_append, List.cons_append, hasDD] at h
      split at h
      · exact absurd h (by simp)
      · rename_i hne
        have ih' := ih (by rw [List.cons_append]; exact h)
        rw [List.cons_append] at ih'
        rw [List.cons_append, List.cons_append, splitSep, if_neg hne, ih']

/-- Absence of a key in a field list, phrased through `List.any` as
`pyContains` computes it. -/
theorem lookupField_eq_none_iff (fields : List (List Char × PyVal)) (key : List Char) :
    lookupField fields key = none
      ↔ (fields.any fun f => decide (f.1 = key)) = false := by
  induction fields with
  | nil => simp [lookupField]
  | cons f fs ih =>
    by_cases h : f.1 = key
    · simp [lookupField, h]
    · rw [List.any_cons, decide_eq_false h, Bool.false_or, lookupField, if_neg h]
      exact ih

/-- A successful first-match lookup makes the `pyContains` membership test
succeed. -/
theorem lookupField_some_any (fields : List (List Char × PyVal)) (key : List Char)
    (v : PyVal) (h : lookupField fields key = some v) :
    (fields.any fun f => decide (f.1 = key)) = true := by
  induction fields with
  | nil => simp [lookupField] at h
  | cons f fs ih =>
    by_cases hf : f.1 = key
    · simp [hf]
    · rw [lookupField, if_neg hf] at h
      simp [hf, ih h]

/-- Appending one extra field only matters for lookups of that field's key,
and only when the key was absent. -/
theorem lookupField_append_single (fields : List (List Char × PyVal)) (k2 : List Char)
    (v : PyVal) (k : List Char) :
    lookupField (fields ++ [(k2, v)]) k
      = match lookupField fields k with
        | some x => some x
        | none => if k2 = k then some v else none := by
  induction fields with
  | nil => simp [lookupField]
  | cons f fs ih =>
    by_cases h : f.1 = k
    · simp [lookupField, h]
    · simp [lookupField, h, ih]

/-- Value of a succeeded task (used to name the all-success gather result). -/
def okValue : Except PyErr PyVal → PyVal
  | Except.ok v => v
  | Except.error _ => PyVal.null

/-- Fail-fast gather on a list containing a failure yields an aggregate
failure (and hence no result list). -/
theorem gatherFailFast_error_of_mem (rs : List (Except PyErr PyVal))
    (h : ∃ r ∈ rs, ∃ e, r = Except.error e) :
    ∃ e, gatherFailFast rs = Except.error e := by
  induction rs with
  | nil =>
    rcases h with ⟨r, hr, _⟩
    cases hr
  | cons r rest ih =>
    cases r with
    | error e => exact ⟨e, rfl⟩
    | ok v =>
      have hrest : ∃ r ∈ rest, ∃ e, r = Except.error e := by
        rcases h with ⟨r', hr', e, he⟩
        rcases List.mem_cons.mp hr' with h1 | h2
        · simp [h1] at he
        · exact ⟨r', h2, e, he⟩
      rcases ih hrest with ⟨e, hge⟩
      exact ⟨e, by simp [gatherFailFast, hge]⟩

/-- Fail-fast gather on an all-success list returns every value in order. -/
theorem gatherFailFast_ok_of_all (rs : List (Except PyErr PyVal))
    (h : ∀ r ∈ rs, ∃ v, r = Except.ok v) :
    gatherFailFast rs = Except.ok (rs.map okValue) := by
  induction rs with
  | nil => rfl
  | cons r rest ih =>
    rcases h r (List.mem_cons_self _ _) with ⟨v, hv⟩
    subst hv
    have hr := ih (fun r' hr' => h r' (List.mem_cons_of_mem _ hr'))
    simp [gatherFailFast, hr, okValue]

/-- A concrete configuration environment used by witnesses: one server
`srv` whose command is `node` and which takes no `args` entry. -/
def witEnv : Env where
  mcpConfigPath := some ("/cfg.json".data)
  home := ("/home/u".data)
  fileExists := fun _ => true
  readJson := fun _ => Except.ok (PyVal.obj
    [(("mcpServers".data), PyVal.obj
      [(("srv".data), PyVal.obj [(("command".data), PyVal.str ("node".data))])])])

/-- A concrete world used by witnesses: the process replies with result 7. -/
def witWorld : World where
  freshId := ("id-1".data)
  canLaunch := fun _ _ => true
  runProc := fun _ _ _ => [OutLine.val (PyVal.obj [(("result".data), PyVal.num 7)])]

/-- A concrete world used by witnesses: the process writes nothing usable. -/
def witWorldSilent : World where
  freshId := ("id-2".data)
  canLaunch := fun _ _ => true
  runProc := fun _ _ _ => []

/-- Claim C2, counterexample: the claim says an identifier with an empty
server segment such as `mcp____x` is rejected, but the code checks only the
segment count and the first segment, so parsing succeeds and returns the
empty server name. -/
theorem parse_accepts_empty_server_segment :
    parse_mcp_tool_name ("mcp____x".data) = Except.ok ([], ['x']) := rfl

/-- Claim C2 (amended): parsing fails with the invalid-identifier error
unless splitting on the double-underscore delimiter yields exactly three
segments whose first is the literal `mcp`; the segments are not required to
be non-empty.  Conversely, when the split has that shape parsing succeeds
and returns the last two segments. -/
theorem parse_rejects_iff_shape (s : List Char) :
    (¬ ((splitSep s).length = 3 ∧ (splitSep s).head? = some ("mcp".data)) →
       parse_mcp_tool_name s = Except.error (PyErr.valueError_invalidToolName s))
    ∧ ((splitSep s).length = 3 ∧ (splitSep s).head? = some ("mcp".data) →
       ∃ p1 p2, splitSep s = [("mcp".data), p1, p2]
         ∧ parse_mcp_tool_name s = Except.ok (p1, p2)) := by
  rcases e : splitSep s with _ | ⟨a, _ | ⟨b, _ | ⟨c, _ | ⟨d, l4⟩⟩⟩⟩
  · exact ⟨fun _ => by simp [parse_mcp_tool_name, e], fun hg => by simp at hg⟩
  · exact ⟨fun _ => by simp [parse_mcp_tool_name, e], fun hg => by simp at hg⟩
  · exact ⟨fun _ => by simp [parse_mcp_tool_name, e], fun hg => by simp at hg⟩
  · refine ⟨fun hbad => ?_, fun hg => ?_⟩
    · by_cases ha : a = ("mcp".data)
      · exact absurd ⟨by simp, by simp [ha]⟩ hbad
      · simp [parse_mcp_tool_name, e, ha]
    · have ha : a = ("mcp".data) := by
        have h2 := hg.2
        simpa using h2
      exact ⟨b, c, by simp [ha], by simp [parse_mcp_tool_name, e, ha]⟩
  · refine ⟨fun _ => by simp [parse_mcp_tool_name, e], fun hg => ?_⟩
    have h1 := hg.1
    simp only [List.length_cons] at h1
    omega

/-- Witness for the amended C2 theorem at the concrete inputs of the spec:
`xcp__a__b` has three segments but a wrong first segment and is rejected. -/
theorem parse_rejects_iff_shape_witness :
    parse_mcp_tool_name ("xcp__a__b".data)
      = Except.error (PyErr.valueError_invalidToolName ("xcp__a__b".data)) :=
  (parse_rejects_iff_shape ("xcp__a__b".data)).1 (by decide)

/-- Claim C7: a well-formed identifier built as `mcp__<server>__<tool>`
from non-empty segments containing no extra delimiter occurrence (the
segments contain no double underscore, and the server segment does not end
in an underscore, which would merge with the following delimiter) parses
to exactly that (server, tool) pair. -/
theorem parse_valid_identifier (s t : List Char) (hs : s ≠ []) (ht : t ≠ [])
    (hs2 : hasDD (s ++ ['_']) = false) (ht2 : hasDD t = false) :
    parse_mcp_tool_name (("mcp".data) ++ '_' :: '_' :: (s ++ '_' :: '_' :: t))
      = Except.ok (s, t) := by
  have h1 := splitSep_append_sep ("mcp".data) (s ++ '_' :: '_' :: t) (by decide)
  have h2 := splitSep_append_sep s t hs2
  have h3 := splitSep_eq_single t ht2
  simp only [parse_mcp_tool_name]
  simp only [show ("mcp".data) = ['m', 'c', 'p'] from rfl] at h1 ⊢
  rw [h1, h2, h3]
  simp

/-- Witness for C7 at the spec's example identifier. -/
theorem parse_valid_identifier_witness :
    parse_mcp_tool_name ("mcp__filesystem__readFile".data)
      = Except.ok (("filesystem".data), ("readFile".data)) :=
  parse_valid_identifier ("filesystem".data) ("readFile".data)
    (by decide) (by decide) (by decide) (by decide)

/-- Claim C4, counterexample: the claim says every line that does not
decode to a structured record is skipped and an exhausted stream fails
with the no-response error, but a line decoding to the JSON value `42`
makes the membership test `in` raise an uncaught `TypeError` instead. -/
theorem scan_nonrecord_line_not_skipped :
    scan_lines [OutLine.val (PyVal.num 42)]
      = Except.error (PyErr.typeError ("argument is not iterable".data)) := rfl

/-- Claim C4 (amended): on streams whose decodable lines are records
(JSON objects), the scan proceeds in stream order: blank and undecodable
lines are skipped, a record with neither an `error` nor a `result` field is
skipped, the first record with a `result` field and no `error` field
returns its result payload, and an exhausted stream fails with the
no-response error.  (A line decoding to a non-record JSON value instead
raises an uncaught type error, per the counterexample.) -/
theorem scan_record_stream_behaviour :
    (∀ rest, scan_lines (OutLine.noJson :: rest) = scan_lines rest)
    ∧ (∀ rest, scan_lines (OutLine.blank :: rest) = scan_lines rest)
    ∧ (∀ fs rest, lookupField fs ("error".data) = none →
        lookupField fs ("result".data) = none →
        scan_lines (OutLine.val (PyVal.obj fs) :: rest) = scan_lines rest)
    ∧ (∀ fs rest v, lookupField fs ("error".data) = none →
        lookupField fs ("result".data) = some v →
        scan_lines (OutLine.val (PyVal.obj fs) :: rest) = Except.ok v)
    ∧ scan_lines [] = Except.error PyErr.mcpError_noResponse := by
  refine ⟨fun rest => rfl, fun rest => rfl, ?_, ?_, rfl⟩
  · intro fs rest he hr
    have he' := (lookupField_eq_none_iff fs ("error".data)).mp he
    have hr' := (lookupField_eq_none_iff fs ("result".data)).mp hr
    simp [scan_lines, pyContains, he', hr']
  · intro fs rest v he hr
    have he' := (lookupField_eq_none_iff fs ("error".data)).mp he
    have hr' := lookupField_some_any fs ("result".data) v hr
    simp [scan_lines, pyContains, pyGetItem, he', hr', hr]

/-- Witness for the amended C4 theorem: one undecodable log line followed
by a valid result record yields that result. -/
theorem scan_record_stream_behaviour_witness :
    scan_lines [OutLine.noJson, OutLine.val (PyVal.obj [(("result".data), PyVal.num 5)])]
      = Except.ok (PyVal.num 5) := by
  have h := scan_record_stream_behaviour
  rw [h.1]
  exact h.2.2.2.1 [(("result".data), PyVal.num 5)] [] (PyVal.num 5) rfl rfl

/-- Claim C5: a decoded record carrying both an `error` and a `result`
field fails with the tool-error carrying the error payload — the error
field is tested before the result field, and the head record of the stream
decides regardless of later lines. -/
theorem scan_error_precedence (fs : List (List Char × PyVal))
    (rest : List OutLine) (ev : PyVal)
    (h1 : lookupField fs ("error".data) = some ev)
    (h2 : (lookupField fs ("result".data)).isSome = true) :
    scan_lines (OutLine.val (PyVal.obj fs) :: rest)
      = Except.error (PyErr.mcpError_toolError ev) := by
  have ha := lookupField_some_any fs ("error".data) ev h1
  simp [scan_lines, pyContains, pyGetItem, ha, h1]

/-- Witness for C5 at the spec's own test record, which carries both keys. -/
theorem scan_error_precedence_witness :
    scan_lines [OutLine.val (PyVal.obj
      [(("error".data), PyVal.obj [(("message".data), PyVal.str ['x'])]),
       (("result".data), PyVal.num 1)])]
      = Except.error (PyErr.mcpError_toolError
          (PyVal.obj [(("message".data), PyVal.str ['x'])])) :=
  scan_error_precedence
    [(("error".data), PyVal.obj [(("message".data), PyVal.str ['x'])]),
     (("result".data), PyVal.num 1)] []
    (PyVal.obj [(("message".data), PyVal.str ['x'])]) rfl rfl

/-- Claim C1, counterexample: the claim says every stage's failure reaches
the caller wrapped in the uniform tool-call-failed error, but only the
transport call sits inside the `try` in `call_mcp_tool`; here a parse
failure reaches the caller as the raw invalid-identifier `ValueError`,
not wrapped. -/
theorem parse_failure_reaches_caller_unwrapped :
    call_mcp_tool witWorld witEnv ("filesystem__readFile".data) none
      = Except.error (PyErr.valueError_invalidToolName ("filesystem__readFile".data)) := rfl

/-- Claim C1 (amended): the single-call operation propagates the first
failure it meets; a parse failure and a config-resolution failure
propagate unwrapped, while a transport failure is wrapped into the uniform
tool-call-failed error carrying the identifier and the cause; a transport
success is returned as is. -/
theorem call_mcp_tool_error_propagation (w : World) (env : Env)
    (t : List Char) (p : Option PyVal) :
    (∀ e, parse_mcp_tool_name t = Except.error e →
       call_mcp_tool w env t p = Except.error e)
    ∧ (∀ sv tl e, parse_mcp_tool_name t = Except.ok (sv, tl) →
       get_mcp_server_config env sv = Except.error e →
       call_mcp_tool w env t p = Except.error e)
    ∧ (∀ sv tl cfg e, parse_mcp_tool_name t = Except.ok (sv, tl) →
       get_mcp_server_config env sv = Except.ok cfg →
       call_mcp_tool_via_stdio w cfg tl (p.getD (PyVal.obj [])) = Except.error e →
       call_mcp_tool w env t p = Except.error (PyErr.mcpError_wrapped t e))
    ∧ (∀ sv tl cfg v, parse_mcp_tool_name t = Except.ok (sv, tl) →
       get_mcp_server_config env sv = Except.ok cfg →
       call_mcp_tool_via_stdio w cfg tl (p.getD (PyVal.obj [])) = Except.ok v →
       call_mcp_tool w env t p = Except.ok v) := by
  refine ⟨?_, ?_, ?_, ?_⟩
  · intro e he
    simp [call_mcp_tool, he]
  · intro sv tl e hp hc
    simp [call_mcp_tool, hp, hc]
  · intro sv tl cfg e hp hc hs
    simp [call_mcp_tool, hp, hc, hs]
  · intro sv tl cfg v hp hc hs
    simp [call_mcp_tool, hp, hc, hs]

/-- Witness for the amended C1 theorem: a transport failure (silent
process, hence no response) reaches the caller wrapped with the identifier
and the cause. -/
theorem call_mcp_tool_error_propagation_witness :
    call_mcp_tool witWorldSilent witEnv ("mcp__srv__doit".data) none
      = Except.error (PyErr.mcpError_wrapped ("mcp__srv__doit".data)
          PyErr.mcpError_noResponse) :=
  (call_mcp_tool_error_propagation witWorldSilent witEnv
      ("mcp__srv__doit".data) none).2.2.1
    ("srv".data) ("doit".data)
    (PyVal.obj [(("command".data), PyVal.str ("node".data))])
    PyErr.mcpError_noResponse rfl rfl rfl

/-- Claim C8: against a well-formed configuration document (existing,
decodable, with a top-level servers collection), resolving an absent
server name fails with the server-not-configured error, and resolving a
present one returns its entry verbatim, whatever it contains. -/
theorem resolver_lookup_verbatim (env : Env) (name : List Char)
    (cfgFields servers : List (List Char × PyVal))
    (hex : env.fileExists (resolvedConfigPath env) = true)
    (hrd : env.readJson (resolvedConfigPath env) = Except.ok (PyVal.obj cfgFields))
    (hms : lookupField cfgFields ("mcpServers".data) = some (PyVal.obj servers)) :
    (lookupField servers name = none →
       get_mcp_server_config env name
         = Except.error (PyErr.mcpError_serverNotFound name (resolvedConfigPath env)))
    ∧ (∀ cfg, lookupField servers name = some cfg →
       get_mcp_server_config env name = Except.ok cfg) := by
  have hmsany := lookupField_some_any cfgFields ("mcpServers".data) (PyVal.obj servers) hms
  constructor
  · intro habs
    have habs' := (lookupField_eq_none_iff servers name).mp habs
    simp [get_mcp_server_config, hex, hrd, pyContains, pyGetItem, hmsany, hms, habs']
  · intro cfg hcfg
    have hany := lookupField_some_any servers name cfg hcfg
    simp [get_mcp_server_config, hex, hrd, pyContains, pyGetItem, hmsany, hms, hany, hcfg]

/-- Witness for C8: in the concrete witness environment the configured
server resolves to its exact entry. -/
theorem resolver_lookup_verbatim_witness :
    get_mcp_server_config witEnv ("srv".data)
      = Except.ok (PyVal.obj [(("command".data), PyVal.str ("node".data))]) :=
  (resolver_lookup_verbatim witEnv ("srv".data)
      [(("mcpServers".data), PyVal.obj
        [(("srv".data), PyVal.obj [(("command".data), PyVal.str ("node".data))])])]
      [(("srv".data), PyVal.obj [(("command".data), PyVal.str ("node".data))])]
      rfl rfl rfl).2
    (PyVal.obj [(("command".data), PyVal.str ("node".data))]) rfl

/-- Claim C9: a configured entry with a command but no `args` field makes
the transport behave exactly as if `args` were the empty list — the
`get`-with-default at line 118 supplies the empty argument sequence. -/
theorem transport_missing_args_default (w : World)
    (fields : List (List Char × PyVal)) (tool : List Char) (params : PyVal)
    (h : lookupField fields ("args".data) = none) :
    call_mcp_tool_via_stdio w (PyVal.obj fields) tool params
      = call_mcp_tool_via_stdio w
          (PyVal.obj (fields ++ [(("args".data), PyVal.arr [])])) tool params := by
  have hne : ¬ ("args".data) = ("command".data) := by decide
  have hcmd : lookupField (fields ++ [(("args".data), PyVal.arr [])]) ("command".data)
      = lookupField fields ("command".data) := by
    rw [lookupField_append_single]
    cases hc : lookupField fields ("command".data) with
    | none => simp [if_neg hne]
    | some c => rfl
  have hargs : lookupField (fields ++ [(("args".data), PyVal.arr [])]) ("args".data)
      = some (PyVal.arr []) := by
    rw [lookupField_append_single, h]
    simp
  cases hc : lookupField fields ("command".data) with
  | none => simp [call_mcp_tool_via_stdio, pyGetItem, hcmd, hc]
  | some c => simp [call_mcp_tool_via_stdio, pyGetItem, pyDictGet, hcmd, hc, hargs, h]

/-- Witness for C9 at the concrete witness server entry, which has a
command and no `args` field. -/
theorem transport_missing_args_default_witness :
    call_mcp_tool_via_stdio witWorld
        (PyVal.obj [(("command".data), PyVal.str ("node".data))])
        ("t".data) (PyVal.obj [])
      = call_mcp_tool_via_stdio witWorld
          (PyVal.obj [(("command".data), PyVal.str ("node".data)),
            (("args".data), PyVal.arr [])])
          ("t".data) (PyVal.obj []) :=
  transport_missing_args_default witWorld
    [(("command".data), PyVal.str ("node".data))] ("t".data) (PyVal.obj []) rfl

/-- Claim C10: omitting the parameters (passing None) behaves identically
to passing an empty mapping, and the request built for an empty mapping
carries an explicit empty `arguments` object, not a null or missing field. -/
theorem call_default_parameters_empty_object (w : World) (env : Env)
    (t rid tool : List Char) :
    call_mcp_tool w env t none = call_mcp_tool w env t (some (PyVal.obj []))
    ∧ mkRequest rid tool (PyVal.obj [])
        = PyVal.obj [
            (("jsonrpc".data), PyVal.str ("2.0".data)),
            (("id".data), PyVal.str rid),
            (("method".data), PyVal.str ("tools/call".data)),
            (("params".data), PyVal.obj [
              (("name".data), PyVal.str tool),
              (("arguments".data), PyVal.obj [])])] :=
  ⟨rfl, rfl⟩

/-- Claim C3: the partial-success operation returns exactly one outcome
per input at the input's own position — a succeeding call yields a
success/data record, a failing call yields a success-false/error record —
and the operation itself is total (gather with return_exceptions converts
every task failure into a value). -/
theorem parallel_safe_outcome_per_position (w : World) (env : Env)
    (calls : List CallDesc) :
    (call_mcp_tools_parallel_safe w env calls).length = calls.length
    ∧ (∀ i (h : i < calls.length), ∀ v,
        call_one w env calls[i] = Except.ok v →
        (call_mcp_tools_parallel_safe w env calls)[i]?
          = some (PyVal.obj [(("success".data), PyVal.bool true),
              (("data".data), v)]))
    ∧ (∀ i (h : i < calls.length), ∀ e,
        call_one w env calls[i] = Except.error e →
        (call_mcp_tools_parallel_safe w env calls)[i]?
          = some (PyVal.obj [(("success".data), PyVal.bool false),
              (("error".data), PyVal.str (pyStr e))])) := by
  refine ⟨by simp [call_mcp_tools_parallel_safe], ?_, ?_⟩
  · intro i h v hv
    rw [call_mcp_tools_parallel_safe, List.getElem?_map, List.getElem?_map,
      List.getElem?_eq_getElem h]
    simp [toOutcome, hv]
  · intro i h e he
    rw [call_mcp_tools_parallel_safe, List.getElem?_map, List.getElem?_map,
      List.getElem?_eq_getElem h]
    simp [toOutcome, he]

/-- Concrete descriptor list for witnesses: one call that succeeds against
the witness world and one whose identifier cannot be parsed. -/
def witCalls : List CallDesc :=
  [{ tool := ("mcp__srv__doit".data), parameters := none },
   { tool := ("oops".data), parameters := none }]

/-- Witness for C3 on a two-element batch with one success and one failure:
two outcomes, in input order, with the success and failure shapes. -/
theorem parallel_safe_outcome_per_position_witness :
    (call_mcp_tools_parallel_safe witWorld witEnv witCalls).length = 2
    ∧ (call_mcp_tools_parallel_safe witWorld witEnv witCalls)[0]?
        = some (PyVal.obj [(("success".data), PyVal.bool true),
            (("data".data), PyVal.num 7)])
    ∧ (call_mcp_tools_parallel_safe witWorld witEnv witCalls)[1]?
        = some (PyVal.obj [(("success".data), PyVal.bool false),
            (("error".data),
              PyVal.str (pyStr (PyErr.valueError_invalidToolName ("oops".data))))]) :=
  ⟨(parallel_safe_outcome_per_position witWorld witEnv witCalls).1,
   (parallel_safe_outcome_per_position witWorld witEnv witCalls).2.1 0 (by decide)
     (PyVal.num 7) rfl,
   (parallel_safe_outcome_per_position witWorld witEnv witCalls).2.2 1 (by decide)
     (PyErr.valueError_invalidToolName ("oops".data)) rfl⟩

/-- Claim C6: the fail-fast operation fails as a whole with a single
aggregate failure whenever any constituent call fails, returning no
partial result list, and on an all-success batch returns one result per
input in input order. -/
theorem parallel_failfast_aggregate (w : World) (env : Env)
    (calls : List CallDesc) :
    ((∃ c ∈ calls, ∃ e, call_one w env c = Except.error e) →
       ∃ e, call_mcp_tools_parallel w env calls = Except.error e)
    ∧ ((∀ c ∈ calls, ∃ v, call_one w env c = Except.ok v) →
       ∃ l, call_mcp_tools_parallel w env calls = Except.ok l
         ∧ l.length = calls.length
         ∧ ∀ i (h : i < calls.length), ∃ v, l[i]? = some v
             ∧ call_one w env calls[i] = Except.ok v) := by
  constructor
  · rintro ⟨c, hc, e, he⟩
    exact gatherFailFast_error_of_mem _
      ⟨call_one w env c, List.mem_map_of_mem _ hc, e, he⟩
  · intro hall
    have hall' : ∀ r ∈ calls.map (call_one w env), ∃ v, r = Except.ok v := by
      intro r hr
      rcases List.mem_map.mp hr with ⟨c, hc, rfl⟩
      exact hall c hc
    refine ⟨(calls.map (call_one w env)).map okValue,
      gatherFailFast_ok_of_all _ hall', by simp, ?_⟩
    intro i h
    rcases hall calls[i] (List.getElem_mem h) with ⟨v, hv⟩
    refine ⟨v, ?_, hv⟩
    rw [List.getElem?_map, List.getElem?_map, List.getElem?_eq_getElem h]
    simp [hv, okValue]

/-- Witness for C6: the mixed batch fails as a whole, and the one-element
all-success batch returns its single result. -/
theorem parallel_failfast_aggregate_witness :
    (∃ e, call_mcp_tools_parallel witWorld witEnv witCalls = Except.error e)
    ∧ (∃ l, call_mcp_tools_parallel witWorld witEnv
        [{ tool := ("mcp__srv__doit".data), parameters := none }] = Except.ok l
        ∧ l.length = 1) := by
  constructor
  · exact (parallel_failfast_aggregate witWorld witEnv witCalls).1
      ⟨{ tool := ("oops".data), parameters := none },
       List.mem_cons_of_mem _ (List.mem_cons_self _ _),
       PyErr.valueError_invalidToolName ("oops".data), rfl⟩
  · have hall : ∀ c ∈ [({ tool := ("mcp__srv__doit".data), parameters := none } : CallDesc)],
        ∃ v, call_one witWorld witEnv c = Except.ok v := by
      intro c hc
      cases List.mem_singleton.mp hc
      exact ⟨PyVal.num 7, rfl⟩
    rcases (parallel_failfast_aggregate witWorld witEnv
        [{ tool := ("mcp__srv__doit".data), parameters := none }]).2 hall
      with ⟨l, hl, hlen, _⟩
    exact ⟨l, hl, hlen⟩
